import Mathlib

/-!
Verification of the NASA APOD web application (src/database.py, src/main.py)
against its natural-language specification.

The Python source is shallowly embedded: SQLAlchemy rows become Lean
structures, the SQLite-backed session becomes an explicit `DB` value threaded
through the handlers, `datetime.date` becomes the `Date` structure with the
CPython calendar semantics spelled out, and the HTTP handlers of src/main.py
become pure functions from their inputs (cookie, form fields, query params,
database state, upstream-fetch oracle) to a response value, with exceptions
modelled by `Except`.

The repository's auth.py is imported by src/main.py but is not part of the
sources provided; its functions (`get_current_user`, `verify_password`,
`create_access_token`) are abstracted as function parameters, following the
specification of the token service and session resolver.
-/

deriving instance DecidableEq for Except

namespace ApodApp

/-! ## Calendar dates (embedding of CPython `datetime.date`) -/

/-- A calendar date as held by CPython `datetime.date`: year in 1..9999,
month in 1..12, day in 1..days-in-month. -/
structure Date where
  year : Nat
  month : Nat
  day : Nat
deriving DecidableEq

/-- Leap-year test of the proleptic Gregorian calendar, as used by
CPython `datetime`. -/
def isLeap (y : Nat) : Bool :=
  y % 4 = 0 && (y % 100 != 0 || y % 400 = 0)

/-- Number of days in a month, per CPython `calendar`/`datetime`. -/
def daysInMonth (y m : Nat) : Nat :=
  if m = 2 then (if isLeap y then 29 else 28)
  else if m = 4 ∨ m = 6 ∨ m = 9 ∨ m = 11 then 30 else 31

/-- The dates representable by CPython `datetime.date`
(MINYEAR = 1, MAXYEAR = 9999). -/
def validDate (dt : Date) : Prop :=
  1 ≤ dt.year ∧ dt.year ≤ 9999 ∧ 1 ≤ dt.month ∧ dt.month ≤ 12 ∧
    1 ≤ dt.day ∧ dt.day ≤ daysInMonth dt.year dt.month

instance (dt : Date) : Decidable (validDate dt) := by
  unfold validDate; infer_instance

/-- Number of days of the years strictly before year `y` that are counted by
the leap rule: `(y-1)/4 - (y-1)/100 + (y-1)/400`, grouped to stay in `Nat`. -/
def leapCount (n : Nat) : Nat :=
  n / 4 + n / 400 - n / 100

/-- Days in all years strictly before year `y`
(CPython `datetime._days_before_year`). -/
def daysBeforeYear (y : Nat) : Nat :=
  365 * (y - 1) + leapCount (y - 1)

/-- Days in year `y` strictly before month `m`
(CPython `datetime._days_before_month`). -/
def daysBeforeMonth (y : Nat) : Nat → Nat
  | 0 => 0
  | 1 => 0
  | m + 2 => daysBeforeMonth y (m + 1) + daysInMonth y (m + 1)

/-- Proleptic Gregorian ordinal of a date, with 0001-01-01 having ordinal 1
(CPython `date.toordinal`). -/
def toOrdinal (dt : Date) : Nat :=
  daysBeforeYear dt.year + daysBeforeMonth dt.year dt.month + dt.day

/-- Errors a handler can let escape (Python exceptions propagating out of a
request handler in src/main.py). -/
inductive HandlerErr where
  /-- `IndexError` from `token.split(" ")[1]` on a cookie without a space. -/
  | indexError
  /-- `ValueError` from `datetime.strptime` on an unparseable date string. -/
  | valueError
  /-- Failure raised by `auth.get_current_user` on a bad token. -/
  | authFailure
  /-- `OverflowError` from `date ± timedelta` leaving the representable range. -/
  | overflowError
  /-- A non-404 `httpx.HTTPStatusError` re-raised by the home handler. -/
  | httpStatusError (code : Nat)
  /-- An exception raised by one of the gathered upstream fetches in the
  favorites handler, re-raised by its `except` block. -/
  | fetchFailure (msg : String)
deriving DecidableEq

/-- Embedding of CPython `date + timedelta(days=1)`: ordinal arithmetic that
raises `OverflowError` when the result leaves [0001-01-01, 9999-12-31]
(`date.__add__` checks `0 < ord <= _MAXORDINAL`), written out as the
equivalent month/year case analysis. -/
def dateAddDay (dt : Date) : Except HandlerErr Date :=
  if dt = ⟨9999, 12, 31⟩ then .error .overflowError
  else .ok (if dt.day < daysInMonth dt.year dt.month then ⟨dt.year, dt.month, dt.day + 1⟩
    else if dt.month < 12 then ⟨dt.year, dt.month + 1, 1⟩
    else ⟨dt.year + 1, 1, 1⟩)

/-- Embedding of CPython `date - timedelta(days=1)`: raises `OverflowError`
below 0001-01-01, otherwise the calendar predecessor. -/
def dateSubDay (dt : Date) : Except HandlerErr Date :=
  if dt = ⟨1, 1, 1⟩ then .error .overflowError
  else .ok (if 1 < dt.day then ⟨dt.year, dt.month, dt.day - 1⟩
    else if 1 < dt.month then ⟨dt.year, dt.month - 1, daysInMonth dt.year (dt.month - 1)⟩
    else ⟨dt.year - 1, 12, 31⟩)

/-! ## Date strings: `strptime("%Y-%m-%d")` and `strftime("%Y-%m-%d")` -/

/-- Split a character list on a separator character, with Python
`str.split(sep)` semantics for a one-character separator (empty pieces kept):
this is `token.split(" ")` and the dash-splitting done by the `%Y-%m-%d`
format regex. -/
def splitOnChar (sep : Char) (cs : List Char) : List (List Char) :=
  match cs with
  | [] => [[]]
  | c :: rest =>
    let r := splitOnChar sep rest
    if c = sep then [] :: r
    else
      match r with
      | [] => [[c]]
      | g :: gs => (c :: g) :: gs

/-- Decimal value of a digit string (the `int()` applied by `_strptime` to a
matched group). -/
def natOfDigits (cs : List Char) : Nat :=
  cs.foldl (fun a c => a * 10 + (c.toNat - 48)) 0

/-- ASCII decimal digit, as matched by `\d` in the `_strptime` regex. -/
def isDigitChar (c : Char) : Bool :=
  48 ≤ c.toNat && c.toNat ≤ 57

/-- A nonempty all-digit field, as matched by the `\d`-based groups in
CPython `_strptime`. -/
def parseNumField (cs : List Char) : Option Nat :=
  if cs ≠ [] ∧ cs.all isDigitChar then some (natOfDigits cs) else none

/-- Embedding of `datetime.strptime(s, "%Y-%m-%d").date()` as used in
src/main.py (read_root line 111, add_favorite line 218): the `%Y` group is
exactly four digits, `%m` and `%d` are one or two digits within range, and
the `date` constructor then enforces year ≥ 1 and day ≤ days-in-month;
any failure is a `ValueError`, here `none`. -/
def parseDate (s : String) : Option Date :=
  match splitOnChar '-' s.toList with
  | [ys, ms, ds] =>
    match parseNumField ys, parseNumField ms, parseNumField ds with
    | some y, some m, some d =>
      if ys.length = 4 ∧ 1 ≤ y ∧ ms.length ≤ 2 ∧ 1 ≤ m ∧ m ≤ 12 ∧
          ds.length ≤ 2 ∧ 1 ≤ d ∧ d ≤ daysInMonth y m
      then some ⟨y, m, d⟩ else none
    | _, _, _ => none
  | _ => none

/-- Decimal digit character. -/
def digitChar (n : Nat) : Char := Char.ofNat (48 + n)

/-- Four-digit zero-padded numeral (the `%Y` of `strftime("%Y-%m-%d")`). -/
def pad4 (n : Nat) : String :=
  String.mk [digitChar (n / 1000 % 10), digitChar (n / 100 % 10),
    digitChar (n / 10 % 10), digitChar (n % 10)]

/-- Two-digit zero-padded numeral (the `%m`/`%d` of `strftime`). -/
def pad2 (n : Nat) : String :=
  String.mk [digitChar (n / 10 % 10), digitChar (n % 10)]

/-- Embedding of `date.strftime("%Y-%m-%d")`, zero-padded. -/
def formatDate (dt : Date) : String :=
  pad4 dt.year ++ "-" ++ pad2 dt.month ++ "-" ++ pad2 dt.day

/-! ## Relational store (embedding of src/database.py + the SQLAlchemy session) -/

/-- A row of the `users` table (src/database.py, class User): integer primary
key, username, password hash. -/
structure UserRow where
  id : Nat
  username : String
  hashedPassword : String
deriving DecidableEq

/-- A row of the `favorites` table (src/database.py, class Favorite): integer
primary key, owning user's id, favorited calendar date. The schema declares
no UNIQUE constraint on (owner_id, apod_date). -/
structure FavRow where
  id : Nat
  ownerId : Nat
  apodDate : Date
deriving DecidableEq

/-- The persistent store: both tables in rowid (insertion) order, plus the
autoincrement counters SQLite uses for the integer primary keys. -/
structure DB where
  users : List UserRow
  favorites : List FavRow
  nextUserId : Nat
  nextFavId : Nat
deriving DecidableEq

/-- The store right after `Base.metadata.create_all`: empty tables. -/
def dbInit : DB := ⟨[], [], 1, 1⟩

/-- The row predicate of `db.query(Favorite).filter_by(owner_id=o, apod_date=d)`. -/
def favMatches (o : Nat) (d : Date) (f : FavRow) : Bool :=
  decide (f.ownerId = o ∧ f.apodDate = d)

/-- Number of Favorite rows for one (owner_id, apod_date) pair. -/
def countFav (db : DB) (o : Nat) (d : Date) : Nat :=
  db.favorites.countP (favMatches o d)

/-- The uniqueness invariant: at most one Favorite row per
(owner_id, apod_date) pair. -/
def favUnique (db : DB) : Prop :=
  ∀ o d, countFav db o d ≤ 1

/-- Embedding of the toggle performed by add_favorite (src/main.py lines
220-227): `first()` the matching Favorite; if present delete that row,
otherwise insert a fresh row. Returns the new store and whether a row was
added. -/
def toggleFavorite (db : DB) (ownerId : Nat) (d : Date) : DB × Bool :=
  if db.favorites.any (favMatches ownerId d) then
    ({ db with favorites := db.favorites.eraseP (favMatches ownerId d) }, false)
  else
    ({ db with
        favorites := db.favorites ++ [⟨db.nextFavId, ownerId, d⟩]
        nextFavId := db.nextFavId + 1 }, true)

/-- Embedding of `db.query(User).filter(User.username == u).first()`. -/
def findUser (db : DB) (username : String) : Option UserRow :=
  db.users.find? (fun u => u.username == username)

/-! ## Session resolution (cookie handling from src/main.py; auth.py abstracted) -/

/-- Modelled from the spec: auth.py is not among the provided sources.
`auth.get_current_user(token, db)` resolves a bearer token to a stored user
and, per the token service specification, fails (raises) with InvalidToken
when the signature check fails, the structure is malformed, or the expiry
has passed. It is abstracted as a function returning `Except`. -/
abbrev Resolver := String → DB → Except HandlerErr UserRow

/-- Python truthiness of the cookie value: `if not token` treats both a
missing cookie and an empty string as absent. -/
def cookieTruthy : Option String → Option String
  | none => none
  | some t => if t = "" then none else some t

/-- Embedding of `token.split(" ")[1]`: `none` models the `IndexError` raised
when the cookie value has no second space-separated field. -/
def bearerToken (t : String) : Option String :=
  (splitOnChar ' ' t.toList)[1]?.map String.mk

/-- The session-resolution block of read_root (src/main.py lines 101-107):
every failure — missing cookie, malformed cookie, failing verification — is
swallowed by `except Exception: pass`, leaving user = None. -/
def resolveUserSafe (cookie : Option String) (resolve : Resolver) (db : DB) :
    Option UserRow :=
  match cookieTruthy cookie with
  | none => none
  | some t =>
    match bearerToken t with
    | none => none
    | some tok => (resolve tok db).toOption

/-! ## Responses -/

/-- Upstream fetch outcome for the home view's `get_nasa_apod_data` call:
a JSON body, an `httpx.HTTPStatusError` with its status code, or an
`httpx.RequestError` (transport failure) with its message. -/
inductive FetchResult where
  | ok (body : String)
  | httpStatusError (code : Nat)
  | requestError (msg : String)
deriving DecidableEq

/-- The responses the embedded handlers produce. -/
inductive Resp where
  /-- `RedirectResponse(url, status_code)`. -/
  | redirect (url : String) (status : Nat)
  /-- A `TemplateResponse` rendering an error context (default status 200). -/
  | render (template : String) (error : String) (status : Nat)
  /-- The index.html success context of read_root: APOD payload, current,
  previous and next date strings, the resolved user, and the favorite flag. -/
  | rootPage (apod : String) (date prevDate nextDate : String)
      (user : Option UserRow) (isFavorite : Bool)
  /-- The favorites.html context: the fetched APOD payloads and the user. -/
  | favPage (apods : List String) (user : UserRow)
deriving DecidableEq

/-- Login responses: the re-rendered login form (with its optional error
message) or the redirect-to-home carrying the session cookie value. -/
inductive LoginResp where
  | form (error : Option String)
  | success (cookieValue : String)
deriving DecidableEq

/-! ## Home handler (src/main.py, read_root) -/

/-- The favorite-flag query of read_root (src/main.py lines 128-132). -/
def isFavQuery (db : DB) (user : Option UserRow) (cd : Date) : Bool :=
  match user with
  | none => false
  | some u => db.favorites.any (favMatches u.id cd)

/-- The tail of read_root once the target date is known (src/main.py lines
117-144): fetch the APOD (404 → error view; other HTTP status errors
re-raised; transport errors caught by the outer `except httpx.RequestError`
into an error view), compute prev/next by `date ± timedelta(days=1)`, query
the favorite flag, render. The second component is the list of dates sent
upstream. -/
def readRootFetch (user : Option UserRow) (cd : Date) (db : DB)
    (fetch : String → FetchResult) : (Except HandlerErr Resp) × List String :=
  let fmt := formatDate cd
  match fetch fmt with
  | .httpStatusError 404 =>
    (.ok (.render "index.html" ("No APOD found for " ++ fmt ++ ".") 200), [fmt])
  | .httpStatusError c => (.error (.httpStatusError c), [fmt])
  | .requestError msg => (.ok (.render "index.html" msg 200), [fmt])
  | .ok apod =>
    match dateSubDay cd with
    | .error e => (.error e, [fmt])
    | .ok prevD =>
      match dateAddDay cd with
      | .error e => (.error e, [fmt])
      | .ok nextD =>
        (.ok (.rootPage apod fmt (formatDate prevD) (formatDate nextD) user
          (isFavQuery db user cd)), [fmt])

/-- Embedding of read_root (src/main.py lines 93-144). Inputs: today's UTC
date, the `access_token` cookie, the session resolver, the `date` query
parameter, the store, and the upstream fetch oracle. Output: the response
(or escaped exception) and the list of dates fetched from upstream. A `date`
query value that is the empty string is falsy in Python, so it is treated as
no date at all. -/
def readRoot (today : Date) (cookie : Option String) (resolve : Resolver)
    (dateParam : Option String) (db : DB) (fetch : String → FetchResult) :
    (Except HandlerErr Resp) × List String :=
  let user := resolveUserSafe cookie resolve db
  match cookieTruthy dateParam with
  | some s =>
    match parseDate s with
    | none =>
      (.ok (.render "index.html" "Invalid date format. Please use YYYY-MM-DD." 200), [])
    | some cd => readRootFetch user cd db fetch
  | none => readRootFetch user today db fetch

/-! ## Signup and login handlers (src/main.py, signup and login) -/

/-- Embedding of signup (src/main.py lines 150-170): reject an existing
username with an inline form error, otherwise hash the password, insert the
user, redirect to /login. `hash` abstracts auth.get_password_hash (auth.py
not among the provided sources). -/
def signupH (username password : String) (hash : String → String) (db : DB) :
    Resp × DB :=
  if db.users.any (fun u => u.username == username) then
    (.render "signup.html" "Username already exists" 200, db)
  else
    (.redirect "/login" 303,
      { db with
          users := db.users ++ [⟨db.nextUserId, username, hash password⟩]
          nextUserId := db.nextUserId + 1 })

/-- Embedding of login (src/main.py lines 176-196): `if not user or not
verify_password(...)` re-renders the form with the one generic message;
otherwise a token is issued and set as the `Bearer` cookie. `verify`
abstracts auth.verify_password and `issue` abstracts
auth.create_access_token (auth.py not among the provided sources). -/
def loginH (username password : String) (verify : String → String → Bool)
    (issue : String → String) (db : DB) : LoginResp :=
  match findUser db username with
  | none => .form (some "Invalid username or password")
  | some user =>
    if verify password user.hashedPassword then
      .success ("Bearer " ++ issue user.username)
    else
      .form (some "Invalid username or password")

/-! ## Toggle-favorite handler (src/main.py, add_favorite) -/

/-- Embedding of add_favorite (src/main.py lines 211-229). Only the missing
(or empty, hence falsy) cookie is handled with a redirect; after that the
handler runs unprotected: `token.split(" ")[1]` can raise `IndexError`,
`get_current_user` can raise on a bad token, and `strptime` raises
`ValueError` on an unparseable form date — all before any store mutation.
On success the store is toggled and the reply redirects back to the raw
form value. The store is returned unchanged on every non-toggling path. -/
def addFavoriteH (cookie : Option String) (resolve : Resolver)
    (apodDate : String) (db : DB) : (Except HandlerErr Resp) × DB :=
  match cookieTruthy cookie with
  | none => (.ok (.redirect "/login" 303), db)
  | some t =>
    match bearerToken t with
    | none => (.error .indexError, db)
    | some tok =>
      match resolve tok db with
      | .error e => (.error e, db)
      | .ok user =>
        match parseDate apodDate with
        | none => (.error .valueError, db)
        | some d =>
          ((.ok (.redirect ("/?date=" ++ apodDate) 303)),
            (toggleFavorite db user.id d).1)

/-! ## Favorites-listing handler (src/main.py, favorites) -/

/-- Execution of `asyncio.gather` over the favorite-fetch tasks: `results`
holds each task's eventual outcome at its index, and `arrival` is the order
in which the network responses come back. Tasks are consumed in arrival
order; a successful result is written into the slot of its own index, and a
failing task makes the whole gather raise. When every task succeeds the
collected list is in index order, whatever the arrival order. -/
def runSched (results : List (Except String String)) :
    List Nat → List (Option String) → Except String (List (Option String))
  | [], acc => .ok acc
  | i :: rest, acc =>
    match results[i]? with
    | none => runSched results rest acc
    | some (.error e) => .error e
    | some (.ok a) => runSched results rest (acc.set i (some a))

/-- The stored-order favorite dates of a user, as returned by
`db.query(Favorite).filter_by(owner_id=user.id).all()` (rowid order). -/
def favDates (db : DB) (userId : Nat) : List String :=
  (db.favorites.filter (fun f => f.ownerId == userId)).map
    (fun f => formatDate f.apodDate)

/-- Embedding of favorites (src/main.py lines 231-263). The cookie handling
mirrors add_favorite (only a missing/empty cookie redirects); then all the
user's favorite dates are fetched concurrently via `asyncio.gather` — here
`fetch` gives each task's outcome and `arrival` the network arrival order —
and the responses are rendered in task order. Any failing fetch is re-raised
out of the handler by the `except` block. -/
def favoritesH (cookie : Option String) (resolve : Resolver) (db : DB)
    (fetch : String → Except String String) (arrival : List Nat) :
    Except HandlerErr Resp :=
  match cookieTruthy cookie with
  | none => .ok (.redirect "/login" 303)
  | some t =>
    match bearerToken t with
    | none => .error .indexError
    | some tok =>
      match resolve tok db with
      | .error e => .error e
      | .ok user =>
        let dates := favDates db user.id
        let results := dates.map fetch
        match runSched results arrival (List.replicate results.length none) with
        | .error e => .error (.fetchFailure e)
        | .ok slots => .ok (.favPage slots.reduceOption user)

/-! ## Reachable store states -/

/-- Store states reachable from the freshly created schema through the
mutating handlers of src/main.py: signup inserts a user, add_favorite may
toggle a favorite; read_root, login, logout and favorites never write. -/
inductive Reachable : DB → Prop where
  | init : Reachable dbInit
  | signup (u p : String) (hash : String → String) {db : DB} :
      Reachable db → Reachable (signupH u p hash db).2
  | favorite (cookie : Option String) (resolve : Resolver) (apodDate : String)
      {db : DB} : Reachable db → Reachable (addFavoriteH cookie resolve apodDate db).2

/-! ## List counting helpers -/

theorem countP_eraseP_self {α} (p : α → Bool) (l : List α) (h : l.any p = true) :
    (l.eraseP p).countP p = l.countP p - 1 := by
  induction l with
  | nil => simp at h
  | cons a l ih =>
    by_cases hpa : p a
    · simp [List.eraseP_cons, hpa, List.countP_cons]
    · have hpaf : p a = false := by simpa using hpa
      have h2 : l.any p = true := by simpa [hpaf] using h
      simp [List.eraseP_cons, hpaf, List.countP_cons, ih h2]

theorem countP_eraseP_of_not {α} (p q : α → Bool) (l : List α)
    (h : ∀ x, p x = true → q x = false) :
    (l.eraseP p).countP q = l.countP q := by
  induction l with
  | nil => simp
  | cons a l ih =>
    by_cases hpa : p a
    · simp [List.eraseP_cons, hpa, List.countP_cons, h a hpa]
    · simp [List.eraseP_cons, hpa, List.countP_cons, ih]

theorem eraseP_append_of_none {α} (p : α → Bool) (l l2 : List α)
    (h : ∀ x ∈ l, p x = false) :
    (l ++ l2).eraseP p = l ++ l2.eraseP p := by
  induction l with
  | nil => simp
  | cons a l ih =>
    have ha : p a = false := h a (by simp)
    simp only [List.cons_append, List.eraseP_cons, ha]
    simp [ih fun x hx => h x (by simp [hx])]

/-! ## Toggle-favorite lemmas -/

theorem favMatches_self (o : Nat) (d : Date) (id : Nat) :
    favMatches o d ⟨id, o, d⟩ = true := by simp [favMatches]

theorem favMatches_disjoint {o o2 : Nat} {d d2 : Date}
    (hne : ¬(o2 = o ∧ d2 = d)) (x : FavRow) (hx : favMatches o d x = true) :
    favMatches o2 d2 x = false := by
  simp only [favMatches, decide_eq_true_eq] at hx
  simp only [favMatches, decide_eq_false_iff_not]
  rintro ⟨h1, h2⟩
  exact hne ⟨h1.symm.trans hx.1, h2.symm.trans hx.2⟩

theorem any_iff_countFav_pos (db : DB) (o : Nat) (d : Date) :
    db.favorites.any (favMatches o d) = true ↔ 0 < countFav db o d := by
  rw [countFav, List.any_eq_true]
  exact (List.countP_pos_iff).symm

theorem toggleFavorite_users (db : DB) (o : Nat) (d : Date) :
    (toggleFavorite db o d).1.users = db.users := by
  unfold toggleFavorite; split <;> rfl

theorem toggleFavorite_preserves_favUnique (db : DB) (o : Nat) (d : Date)
    (h : favUnique db) : favUnique (toggleFavorite db o d).1 := by
  intro o2 d2
  unfold toggleFavorite
  split
  next hany =>
    have hsub : List.Sublist (db.favorites.eraseP (favMatches o d)) db.favorites :=
      List.eraseP_sublist db.favorites
    calc (db.favorites.eraseP (favMatches o d)).countP (favMatches o2 d2)
        ≤ db.favorites.countP (favMatches o2 d2) := hsub.countP_le _
      _ ≤ 1 := h o2 d2
  next hany =>
    simp only [countFav, List.countP_append]
    by_cases heq : o2 = o ∧ d2 = d
    · obtain ⟨ho, hd⟩ := heq
      subst ho; subst hd
      have h0 : db.favorites.countP (favMatches o2 d2) = 0 := by
        rw [List.countP_eq_zero]
        intro a ha hpa
        exact hany (List.any_eq_true.mpr ⟨a, ha, hpa⟩)
      simp [h0, favMatches_self, List.countP_cons]
    · have hnew : favMatches o2 d2 ⟨db.nextFavId, o, d⟩ = false :=
        favMatches_disjoint heq _ (favMatches_self o d db.nextFavId)
      simpa [List.countP_cons, hnew] using h o2 d2

/-- Toggling exactly once: reports `added` iff no row was present, and the
count for the toggled pair flips between 0 and 1 while every other pair's
count is untouched. -/
theorem toggleFavorite_count (db : DB) (o : Nat) (d : Date) (h : favUnique db) :
    countFav (toggleFavorite db o d).1 o d
        = (if countFav db o d = 0 then 1 else 0)
      ∧ ((toggleFavorite db o d).2 = true ↔ countFav db o d = 0)
      ∧ ∀ o2 d2, ¬(o2 = o ∧ d2 = d) →
          countFav (toggleFavorite db o d).1 o2 d2 = countFav db o2 d2 := by
  unfold toggleFavorite
  by_cases hany : db.favorites.any (favMatches o d) = true
  · have hpos : 0 < countFav db o d := (any_iff_countFav_pos db o d).mp hany
    have hle : countFav db o d ≤ 1 := h o d
    have h1 : List.countP (favMatches o d) db.favorites = 1 := by
      simp only [countFav] at hpos hle; omega
    have hers := countP_eraseP_self (favMatches o d) db.favorites hany
    refine ⟨?_, ?_, ?_⟩
    · simp only [hany, if_true, countFav]
      simp [hers, h1]
    · simp [hany, countFav, h1]
    · intro o2 d2 hne
      simp only [hany, if_true, countFav]
      exact countP_eraseP_of_not _ _ _ (favMatches_disjoint hne)
  · have h0 : List.countP (favMatches o d) db.favorites = 0 := by
      rw [List.countP_eq_zero]
      intro a ha hpa
      exact hany (List.any_eq_true.mpr ⟨a, ha, hpa⟩)
    refine ⟨?_, ?_, ?_⟩
    · simp [hany, countFav, List.countP_append, List.countP_cons, favMatches_self, h0]
    · simp [hany, countFav, h0]
    · intro o2 d2 hne
      have hnew : favMatches o2 d2 ⟨db.nextFavId, o, d⟩ = false :=
        favMatches_disjoint hne _ (favMatches_self o d db.nextFavId)
      simp [hany, countFav, List.countP_append, List.countP_cons, hnew]

/-! ## Reachability and the uniqueness invariant -/

theorem signupH_favorites (u p : String) (hash : String → String) (db : DB) :
    (signupH u p hash db).2.favorites = db.favorites := by
  unfold signupH; split <;> rfl

theorem addFavoriteH_state (cookie : Option String) (resolve : Resolver)
    (apodDate : String) (db : DB) :
    (addFavoriteH cookie resolve apodDate db).2 = db ∨
      ∃ uid dd, (addFavoriteH cookie resolve apodDate db).2
        = (toggleFavorite db uid dd).1 := by
  unfold addFavoriteH
  split
  · exact Or.inl rfl
  · split
    · exact Or.inl rfl
    · split
      · exact Or.inl rfl
      · split
        · exact Or.inl rfl
        · exact Or.inr ⟨_, _, rfl⟩

/-- Every store state reachable through the application's handlers satisfies
the at-most-one-Favorite-per-(owner, date) invariant. -/
theorem favUnique_of_reachable {db : DB} (h : Reachable db) : favUnique db := by
  induction h with
  | init => intro o d; simp [countFav, dbInit]
  | signup u p hash _ ih =>
    intro o d
    rw [countFav, signupH_favorites]
    exact ih o d
  | favorite cookie resolve apodDate _ ih =>
    rcases addFavoriteH_state cookie resolve apodDate _ with heq | ⟨uid, dd, heq⟩
    · rw [heq]; exact ih
    · rw [heq]; exact toggleFavorite_preserves_favUnique _ uid dd ih

/-- Toggling the same pair twice restores every pair's row count. -/
theorem toggleFavorite_twice_counts (db : DB) (o : Nat) (d : Date)
    (h : favUnique db) (o2 : Nat) (d2 : Date) :
    countFav (toggleFavorite (toggleFavorite db o d).1 o d).1 o2 d2
      = countFav db o2 d2 := by
  have h1 := toggleFavorite_count db o d h
  have hu1 := toggleFavorite_preserves_favUnique db o d h
  have h2 := toggleFavorite_count (toggleFavorite db o d).1 o d hu1
  by_cases heq : o2 = o ∧ d2 = d
  · obtain ⟨ho, hd⟩ := heq
    subst ho; subst hd
    rw [h2.1, h1.1]
    have hle : countFav db o2 d2 ≤ 1 := h o2 d2
    by_cases h0 : countFav db o2 d2 = 0
    · simp [h0]
    · have : countFav db o2 d2 = 1 := by omega
      simp [h0, this]
  · rw [h2.2.2 o2 d2 heq, h1.2.2 o2 d2 heq]

/-- When no row for the pair exists, add-then-remove leaves the favorites
table literally identical. -/
theorem toggleFavorite_roundtrip_list (db : DB) (o : Nat) (d : Date)
    (h0 : countFav db o d = 0) :
    (toggleFavorite (toggleFavorite db o d).1 o d).1.favorites = db.favorites := by
  have h0t : List.countP (favMatches o d) db.favorites = 0 := h0
  have hanyf : ¬ db.favorites.any (favMatches o d) = true := by
    rw [any_iff_countFav_pos]; omega
  have hall : ∀ x ∈ db.favorites, favMatches o d x = false := by
    intro x hx
    have := List.countP_eq_zero.mp h0t x hx
    simpa using this
  have hany2 : (db.favorites ++ [(⟨db.nextFavId, o, d⟩ : FavRow)]).any
      (favMatches o d) = true := by
    simp [List.any_append, favMatches_self]
  have hstep1 : toggleFavorite db o d
      = ({ db with
            favorites := db.favorites ++ [⟨db.nextFavId, o, d⟩]
            nextFavId := db.nextFavId + 1 }, true) := by
    unfold toggleFavorite
    simp [hanyf]
  rw [hstep1]
  have hstep2 : toggleFavorite
      { db with
          favorites := db.favorites ++ [(⟨db.nextFavId, o, d⟩ : FavRow)]
          nextFavId := db.nextFavId + 1 } o d
      = ({ db with
            favorites := (db.favorites ++ [(⟨db.nextFavId, o, d⟩ : FavRow)]).eraseP
              (favMatches o d)
            nextFavId := db.nextFavId + 1 }, false) := by
    unfold toggleFavorite
    simp [hany2]
  rw [hstep2]
  show (db.favorites ++ [(⟨db.nextFavId, o, d⟩ : FavRow)]).eraseP (favMatches o d)
    = db.favorites
  rw [eraseP_append_of_none _ _ _ hall]
  simp [List.eraseP_cons, favMatches_self]

/-- Toggling never touches the users table, twice included. -/
theorem toggleFavorite_twice_users (db : DB) (o : Nat) (d : Date) :
    (toggleFavorite (toggleFavorite db o d).1 o d).1.users = db.users := by
  rw [toggleFavorite_users, toggleFavorite_users]

/-! ## `asyncio.gather` lemmas -/

theorem runSched_all_ok (results : List (Except String String)) (v : Nat → String)
    (hv : ∀ i, i < results.length → results[i]? = some (.ok (v i))) :
    ∀ (arrival : List Nat) (acc : List (Option String)),
      (∀ i ∈ arrival, i < results.length) →
      runSched results arrival acc
        = .ok (arrival.foldl (fun a i => a.set i (some (v i))) acc) := by
  intro arrival
  induction arrival with
  | nil => intro acc _; rfl
  | cons j rest ih =>
    intro acc hmem
    have hj : j < results.length := hmem j (by simp)
    rw [runSched, hv j hj, List.foldl_cons]
    exact ih _ (fun i hi => hmem i (by simp [hi]))

theorem foldl_set_spec (v : Nat → String) :
    ∀ (arrival : List Nat) (acc : List (Option String)),
      (arrival.foldl (fun a i => a.set i (some (v i))) acc).length = acc.length ∧
      ∀ j, j < acc.length →
        (arrival.foldl (fun a i => a.set i (some (v i))) acc)[j]?
          = if j ∈ arrival then some (some (v j)) else acc[j]? := by
  intro arrival
  induction arrival with
  | nil => intro acc; exact ⟨rfl, by intro j hj; simp⟩
  | cons a rest ih =>
    intro acc
    refine ⟨?_, ?_⟩
    · rw [List.foldl_cons, (ih (acc.set a (some (v a)))).1]
      simp
    · intro j hj
      rw [List.foldl_cons,
        (ih (acc.set a (some (v a)))).2 j (by simpa using hj)]
      by_cases hja : j ∈ rest
      · simp [hja]
      · by_cases hje : j = a
        · subst hje
          simp [hja, List.getElem?_set, hj]
        · simp [hja, hje, List.getElem?_set, Ne.symm hje]

theorem runSched_perm (dates : List String) (g : String → String)
    (arrival : List Nat) (hperm : arrival.Perm (List.range dates.length)) :
    runSched (dates.map fun dd => (Except.ok (g dd) : Except String String)) arrival
        (List.replicate dates.length none)
      = .ok (dates.map fun dd => some (g dd)) := by
  have hv : ∀ i, i < (dates.map fun dd =>
      (Except.ok (g dd) : Except String String)).length →
      (dates.map fun dd => (Except.ok (g dd) : Except String String))[i]?
        = some (.ok (g (dates.getD i ""))) := by
    intro i hi
    simp only [List.length_map] at hi
    simp [List.getElem?_map, List.getElem?_eq_getElem hi, List.getD_eq_getElem?_getD]
  have hmem : ∀ i ∈ arrival, i < (dates.map fun dd =>
      (Except.ok (g dd) : Except String String)).length := by
    intro i hi
    have := hperm.mem_iff.mp hi
    simp only [List.length_map]
    exact List.mem_range.mp this
  rw [runSched_all_ok _ (fun i => g (dates.getD i "")) hv arrival _ hmem]
  congr 1
  have hspec := foldl_set_spec (fun i => g (dates.getD i "")) arrival
    (List.replicate dates.length none)
  refine List.ext_getElem? ?_
  intro j
  by_cases hjn : j < dates.length
  · have hj2 : j < (List.replicate dates.length (none : Option String)).length := by
      simpa using hjn
    rw [hspec.2 j hj2]
    have hjarr : j ∈ arrival := hperm.symm.mem_iff.mp (List.mem_range.mpr hjn)
    simp [hjarr, List.getElem?_map, List.getElem?_eq_getElem hjn,
      List.getD_eq_getElem?_getD]
  · have hlen : dates.length ≤ j := by omega
    have h1 : (arrival.foldl (fun a i => a.set i
        (some (g (dates.getD i "")))) (List.replicate dates.length none))[j]?
        = none := by
      apply List.getElem?_eq_none
      calc (arrival.foldl (fun a i => a.set i (some (g (dates.getD i ""))))
            (List.replicate dates.length none)).length
          = (List.replicate dates.length (none : Option String)).length := hspec.1
        _ = dates.length := by simp
        _ ≤ j := hlen
    have h2 : (dates.map fun dd => some (g dd))[j]? = none := by
      apply List.getElem?_eq_none
      simpa using hlen
    rw [h1, h2]

theorem runSched_error_of_mem (results : List (Except String String)) :
    ∀ (arrival : List Nat) (acc : List (Option String)),
      (∃ i ∈ arrival, ∃ e, results[i]? = some (.error e)) →
      ∃ e, runSched results arrival acc = .error e := by
  intro arrival
  induction arrival with
  | nil =>
    rintro acc ⟨i, hi, _⟩
    simp at hi
  | cons j rest ih =>
    rintro acc ⟨i, hi, e, hie⟩
    rw [runSched]
    cases hr : results[j]? with
    | none =>
      rcases List.mem_cons.mp hi with rfl | hi2
      · rw [hr] at hie; simp at hie
      · exact ih acc ⟨i, hi2, e, hie⟩
    | some r =>
      cases r with
      | error e2 => exact ⟨e2, rfl⟩
      | ok a =>
        rcases List.mem_cons.mp hi with rfl | hi2
        · rw [hr] at hie; simp at hie
        · exact ih _ ⟨i, hi2, e, hie⟩

theorem reduceOption_map_some (l : List String) :
    (l.map some).reduceOption = l := by
  induction l with
  | nil => rfl
  | cons a l ih => simp [List.reduceOption_cons_of_some, ih]

/-! ## Calendar arithmetic lemmas -/

theorem daysInMonth_bounds (y m : Nat) :
    28 ≤ daysInMonth y m ∧ daysInMonth y m ≤ 31 := by
  unfold daysInMonth
  split
  · split <;> omega
  · split <;> omega

theorem daysInMonth_12 (y : Nat) : daysInMonth y 12 = 31 := by
  simp [daysInMonth]

theorem daysBeforeMonth_succ (y m : Nat) (hm : 1 ≤ m) :
    daysBeforeMonth y (m + 1) = daysBeforeMonth y m + daysInMonth y m := by
  obtain ⟨k, rfl⟩ : ∃ k, m = k + 1 := ⟨m - 1, by omega⟩
  rfl

theorem daysBeforeMonth_12 (y : Nat) :
    daysBeforeMonth y 12 + 31 = if isLeap y then 366 else 365 := by
  by_cases h : isLeap y <;>
    simp [daysBeforeMonth, daysInMonth, h]

theorem isLeap_iff (y : Nat) :
    isLeap y = true ↔ (y % 4 = 0 ∧ (y % 100 ≠ 0 ∨ y % 400 = 0)) := by
  simp [isLeap]

theorem leapCount_succ (y : Nat) (hy : 1 ≤ y) :
    leapCount y = leapCount (y - 1) + (if isLeap y then 1 else 0) := by
  obtain ⟨z, rfl⟩ : ∃ z, y = z + 1 := ⟨y - 1, by omega⟩
  unfold leapCount
  simp only [Nat.add_sub_cancel]
  by_cases h : isLeap (z + 1) = true
  · rw [if_pos h]
    have := (isLeap_iff (z + 1)).mp h
    rcases this.2 with h100 | h400 <;> omega
  · rw [if_neg h]
    rw [isLeap_iff] at h
    omega

theorem daysBeforeYear_succ (y : Nat) (hy : 1 ≤ y) :
    daysBeforeYear (y + 1) = daysBeforeYear y + (if isLeap y then 366 else 365) := by
  unfold daysBeforeYear
  simp only [Nat.add_sub_cancel]
  rw [leapCount_succ y hy]
  by_cases h : isLeap y <;> simp [h] <;> omega

/-- The successor produced by `date + timedelta(days=1)` really is one day
later: it is a valid date and its proleptic Gregorian ordinal is exactly one
more. -/
theorem dateAddDay_ordinal (dt : Date) (hv : validDate dt)
    (hne : dt ≠ ⟨9999, 12, 31⟩) :
    ∃ nd, dateAddDay dt = .ok nd ∧ validDate nd ∧
      toOrdinal nd = toOrdinal dt + 1 := by
  obtain ⟨y, m, dy⟩ := dt
  obtain ⟨hy1, hy2, hm1, hm2, hd1, hd2⟩ := hv
  simp only at hy1 hy2 hm1 hm2 hd1 hd2
  by_cases hlt : dy < daysInMonth y m
  · refine ⟨⟨y, m, dy + 1⟩, ?_, ?_, ?_⟩
    · simp [dateAddDay, hne, hlt]
    · show 1 ≤ y ∧ y ≤ 9999 ∧ 1 ≤ m ∧ m ≤ 12 ∧ 1 ≤ dy + 1 ∧
        dy + 1 ≤ daysInMonth y m
      omega
    · show daysBeforeYear y + daysBeforeMonth y m + (dy + 1)
        = daysBeforeYear y + daysBeforeMonth y m + dy + 1
      omega
  · by_cases hm12 : m < 12
    · have hb := (daysInMonth_bounds y (m + 1)).1
      refine ⟨⟨y, m + 1, 1⟩, ?_, ?_, ?_⟩
      · simp [dateAddDay, hne, hlt, hm12]
      · show 1 ≤ y ∧ y ≤ 9999 ∧ 1 ≤ m + 1 ∧ m + 1 ≤ 12 ∧ 1 ≤ 1 ∧
          1 ≤ daysInMonth y (m + 1)
        omega
      · show daysBeforeYear y + daysBeforeMonth y (m + 1) + 1
          = daysBeforeYear y + daysBeforeMonth y m + dy + 1
        rw [daysBeforeMonth_succ y m hm1]
        omega
    · have hm' : m = 12 := by omega
      subst hm'
      have h31 := daysInMonth_12 y
      have hd31 : dy = 31 := by omega
      subst hd31
      have hy9999 : y ≠ 9999 := by
        intro hh
        exact hne (by simp [hh])
      have hb := (daysInMonth_bounds (y + 1) 1).1
      refine ⟨⟨y + 1, 1, 1⟩, ?_, ?_, ?_⟩
      · simp [dateAddDay, hne, daysInMonth_12]
      · show 1 ≤ y + 1 ∧ y + 1 ≤ 9999 ∧ 1 ≤ 1 ∧ 1 ≤ 12 ∧ 1 ≤ 1 ∧
          1 ≤ daysInMonth (y + 1) 1
        omega
      · show daysBeforeYear (y + 1) + daysBeforeMonth (y + 1) 1 + 1
          = daysBeforeYear y + daysBeforeMonth y 12 + 31 + 1
        rw [daysBeforeYear_succ y hy1]
        have hdbm1 : daysBeforeMonth (y + 1) 1 = 0 := rfl
        have h12 := daysBeforeMonth_12 y
        rw [hdbm1]
        by_cases h : isLeap y <;> simp [h] at h12 ⊢ <;> omega

/-- The predecessor produced by `date - timedelta(days=1)` really is one day
earlier. -/
theorem dateSubDay_ordinal (dt : Date) (hv : validDate dt)
    (hne : dt ≠ ⟨1, 1, 1⟩) :
    ∃ pd, dateSubDay dt = .ok pd ∧ validDate pd ∧
      toOrdinal dt = toOrdinal pd + 1 := by
  obtain ⟨y, m, dy⟩ := dt
  obtain ⟨hy1, hy2, hm1, hm2, hd1, hd2⟩ := hv
  simp only at hy1 hy2 hm1 hm2 hd1 hd2
  by_cases hdy : 1 < dy
  · refine ⟨⟨y, m, dy - 1⟩, ?_, ?_, ?_⟩
    · have hne2 : (⟨y, m, dy⟩ : Date) ≠ ⟨1, 1, 1⟩ := by
        simp only [ne_eq, Date.mk.injEq]
        omega
      simp [dateSubDay, hne2, hdy]
    · show 1 ≤ y ∧ y ≤ 9999 ∧ 1 ≤ m ∧ m ≤ 12 ∧ 1 ≤ dy - 1 ∧
        dy - 1 ≤ daysInMonth y m
      omega
    · show daysBeforeYear y + daysBeforeMonth y m + dy
        = daysBeforeYear y + daysBeforeMonth y m + (dy - 1) + 1
      omega
  · have hdy1 : dy = 1 := by omega
    subst hdy1
    by_cases hm' : 1 < m
    · have hne2 : (⟨y, m, 1⟩ : Date) ≠ ⟨1, 1, 1⟩ := by
        simp only [ne_eq, Date.mk.injEq]
        omega
      have hb := (daysInMonth_bounds y (m - 1)).1
      refine ⟨⟨y, m - 1, daysInMonth y (m - 1)⟩, ?_, ?_, ?_⟩
      · simp [dateSubDay, hne2, hm']
      · show 1 ≤ y ∧ y ≤ 9999 ∧ 1 ≤ m - 1 ∧ m - 1 ≤ 12 ∧
          1 ≤ daysInMonth y (m - 1) ∧
          daysInMonth y (m - 1) ≤ daysInMonth y (m - 1)
        omega
      · show daysBeforeYear y + daysBeforeMonth y m + 1
          = daysBeforeYear y + daysBeforeMonth y (m - 1) + daysInMonth y (m - 1) + 1
        have hsucc := daysBeforeMonth_succ y (m - 1) (by omega)
        have hmm : m - 1 + 1 = m := by omega
        rw [hmm] at hsucc
        omega
    · have hm1' : m = 1 := by omega
      subst hm1'
      have hy2' : 2 ≤ y := by
        rcases Nat.lt_or_ge y 2 with hlt | hge
        · exfalso
          apply hne
          have : y = 1 := by omega
          simp [this]
        · exact hge
      refine ⟨⟨y - 1, 12, 31⟩, ?_, ?_, ?_⟩
      · have hne2 : (⟨y, 1, 1⟩ : Date) ≠ ⟨1, 1, 1⟩ := by
          simp only [ne_eq, Date.mk.injEq]
          omega
        simp [dateSubDay, hne2]
      · show 1 ≤ y - 1 ∧ y - 1 ≤ 9999 ∧ 1 ≤ 12 ∧ 12 ≤ 12 ∧ 1 ≤ 31 ∧
          31 ≤ daysInMonth (y - 1) 12
        have h31 := daysInMonth_12 (y - 1)
        omega
      · show daysBeforeYear y + daysBeforeMonth y 1 + 1
          = daysBeforeYear (y - 1) + daysBeforeMonth (y - 1) 12 + 31 + 1
        have hy' : y - 1 + 1 = y := by omega
        have hstep := daysBeforeYear_succ (y - 1) (by omega)
        rw [hy'] at hstep
        have h12 := daysBeforeMonth_12 (y - 1)
        have hdbm1 : daysBeforeMonth y 1 = 0 := rfl
        rw [hstep, hdbm1]
        by_cases h : isLeap (y - 1) <;> simp [h] at h12 ⊢ <;> omega

/-! ## Parsed dates are valid -/

theorem foldl_digits_lt (cs : List Char) :
    ∀ a, (∀ c ∈ cs, isDigitChar c = true) →
      cs.foldl (fun x c => x * 10 + (c.toNat - 48)) a < (a + 1) * 10 ^ cs.length := by
  induction cs with
  | nil =>
    intro a _
    simp
  | cons c cs ih =>
    intro a h
    have hc : isDigitChar c = true := h c (by simp)
    have hd : c.toNat - 48 ≤ 9 := by
      simp [isDigitChar] at hc
      omega
    have step := ih (a * 10 + (c.toNat - 48)) (fun x hx => h x (by simp [hx]))
    calc (c :: cs).foldl (fun x k => x * 10 + (k.toNat - 48)) a
        = cs.foldl (fun x k => x * 10 + (k.toNat - 48))
            (a * 10 + (c.toNat - 48)) := rfl
      _ < (a * 10 + (c.toNat - 48) + 1) * 10 ^ cs.length := step
      _ ≤ ((a + 1) * 10) * 10 ^ cs.length := by
          apply Nat.mul_le_mul_right
          omega
      _ = (a + 1) * 10 ^ (c :: cs).length := by
          rw [List.length_cons, pow_succ]
          ring

theorem natOfDigits_lt (cs : List Char) (h : cs.all isDigitChar = true) :
    natOfDigits cs < 10 ^ cs.length := by
  have := foldl_digits_lt cs 0 (fun c hc => (List.all_eq_true.mp h) c hc)
  simpa [natOfDigits] using this

theorem parseNumField_spec (cs : List Char) (n : Nat)
    (h : parseNumField cs = some n) :
    n = natOfDigits cs ∧ cs.all isDigitChar = true := by
  unfold parseNumField at h
  split at h
  next hcond => exact ⟨(Option.some.inj h).symm, hcond.2⟩
  next => simp at h

/-- A date produced by the embedded `strptime("%Y-%m-%d")` is a valid
CPython date: the four-digit `%Y` group bounds the year by 9999 and the
guard supplies the remaining bounds. -/
theorem parseDate_valid (s : String) (dt : Date) (h : parseDate s = some dt) :
    validDate dt := by
  unfold parseDate at h
  split at h
  case h_2 => simp at h
  case h_1 ys ms ds heq =>
    cases hys : parseNumField ys with
    | none => rw [hys] at h; simp at h
    | some y =>
      cases hms : parseNumField ms with
      | none => rw [hys, hms] at h; simp at h
      | some m =>
        cases hds : parseNumField ds with
        | none => rw [hys, hms, hds] at h; simp at h
        | some d =>
          rw [hys, hms, hds] at h
          simp only [Option.ite_none_right_eq_some] at h
          obtain ⟨⟨hy4, hy1, hmlen, hm1, hm12, hdlen, hd1, hdim⟩, hdt⟩ := h
          obtain ⟨hyv, hyd⟩ := parseNumField_spec ys y hys
          have hbound : y < 10 ^ ys.length := hyv ▸ natOfDigits_lt ys hyd
          rw [hy4] at hbound
          have hy9999 : y ≤ 9999 := by
            have hp : (10 : Nat) ^ 4 = 10000 := by norm_num
            omega
          rw [Option.some.injEq] at hdt
          subst hdt
          exact ⟨hy1, hy9999, hm1, hm12, hd1, hdim⟩

/-! ## Claim theorems -/

/-- C1: for every reachable state of the persistent store there is at most
one Favorite row per (owner_id, apod_date) pair; every store operation —
signup's insert and add_favorite's toggle included — preserves this
uniqueness. -/
theorem c1_favorite_uniqueness_invariant {db : DB} (h : Reachable db) :
    favUnique db :=
  favUnique_of_reachable h

theorem c1_favorite_uniqueness_invariant_witness :
    favUnique (addFavoriteH (some "Bearer t")
      (fun _ _ => Except.ok ⟨1, "alice", "h"⟩) "2025-07-06" dbInit).2 :=
  c1_favorite_uniqueness_invariant
    (Reachable.favorite (some "Bearer t")
      (fun _ _ => Except.ok ⟨1, "alice", "h"⟩) "2025-07-06" Reachable.init)

/-- C3: from any store state satisfying the uniqueness invariant (which all
reachable states do), toggling a (user, date) pair deletes the matching
Favorite if one exists and otherwise inserts one (reporting `added` exactly
when none existed), and toggling twice restores every pair's row count and
the users table; when no favorite row existed before, the favorites table
returns to exactly its original rows. -/
theorem c3_toggle_twice_roundtrip (db : DB) (o : Nat) (d : Date)
    (h : favUnique db) :
    (∀ o2 d2, countFav (toggleFavorite (toggleFavorite db o d).1 o d).1 o2 d2
        = countFav db o2 d2)
    ∧ (toggleFavorite (toggleFavorite db o d).1 o d).1.users = db.users
    ∧ ((toggleFavorite db o d).2 = true ↔ countFav db o d = 0)
    ∧ countFav (toggleFavorite db o d).1 o d
        = (if countFav db o d = 0 then 1 else 0)
    ∧ (countFav db o d = 0 →
        (toggleFavorite (toggleFavorite db o d).1 o d).1.favorites
          = db.favorites) :=
  ⟨toggleFavorite_twice_counts db o d h,
   toggleFavorite_twice_users db o d,
   (toggleFavorite_count db o d h).2.1,
   (toggleFavorite_count db o d h).1,
   fun h0 => toggleFavorite_roundtrip_list db o d h0⟩

theorem c3_toggle_twice_roundtrip_witness :
    (∀ o2 d2, countFav
        (toggleFavorite (toggleFavorite dbInit 1 ⟨2025, 7, 6⟩).1 1 ⟨2025, 7, 6⟩).1
          o2 d2
        = countFav dbInit o2 d2)
    ∧ (toggleFavorite (toggleFavorite dbInit 1 ⟨2025, 7, 6⟩).1 1 ⟨2025, 7, 6⟩).1.users
        = dbInit.users
    ∧ ((toggleFavorite dbInit 1 ⟨2025, 7, 6⟩).2 = true
        ↔ countFav dbInit 1 ⟨2025, 7, 6⟩ = 0)
    ∧ countFav (toggleFavorite dbInit 1 ⟨2025, 7, 6⟩).1 1 ⟨2025, 7, 6⟩
        = (if countFav dbInit 1 ⟨2025, 7, 6⟩ = 0 then 1 else 0)
    ∧ (countFav dbInit 1 ⟨2025, 7, 6⟩ = 0 →
        (toggleFavorite (toggleFavorite dbInit 1 ⟨2025, 7, 6⟩).1 1
          ⟨2025, 7, 6⟩).1.favorites = dbInit.favorites) :=
  c3_toggle_twice_roundtrip dbInit 1 ⟨2025, 7, 6⟩
    (by intro o d; simp [favUnique, countFav, dbInit])

/-- C8: a POST /favorite request with no session cookie is answered with a
303 redirect to /login and the store — users and favorites tables alike —
is returned unchanged. -/
theorem c8_anonymous_favorite_frame (resolve : Resolver) (apodDate : String)
    (db : DB) :
    addFavoriteH none resolve apodDate db
      = (.ok (.redirect "/login" 303), db) := rfl

/-- C10: an authenticated POST /favorite whose apod_date form value fails
`strptime("%Y-%m-%d")` raises the ValueError out of the handler — no
redirect, no rendered view — and the store is unchanged. -/
theorem c10_invalid_form_date_raises (cookie : Option String) (t tok : String)
    (resolve : Resolver) (user : UserRow) (apodDate : String) (db : DB)
    (hc : cookieTruthy cookie = some t)
    (htok : bearerToken t = some tok)
    (hres : resolve tok db = .ok user)
    (hparse : parseDate apodDate = none) :
    addFavoriteH cookie resolve apodDate db = (.error .valueError, db) := by
  simp [addFavoriteH, hc, htok, hres, hparse]

theorem c10_invalid_form_date_raises_witness :
    addFavoriteH (some "Bearer t") (fun _ _ => Except.ok ⟨1, "alice", "h"⟩)
        "not-a-date" dbInit
      = (.error .valueError, dbInit) :=
  c10_invalid_form_date_raises (some "Bearer t") "Bearer t" "t"
    (fun _ _ => Except.ok ⟨1, "alice", "h"⟩) ⟨1, "alice", "h"⟩ "not-a-date" dbInit
    (by decide) (by decide) rfl (by decide)

/-- C7: any two failing login attempts — one with a username not in the
store, one with a stored username whose password fails the hash verifier —
produce the very same response value: the re-rendered login form with the
single generic message, so the two failure causes are indistinguishable. -/
theorem c7_login_failures_indistinguishable
    (u1 p1 : String) (verify1 : String → String → Bool)
    (issue1 : String → String) (db1 : DB)
    (u2 p2 : String) (verify2 : String → String → Bool)
    (issue2 : String → String) (db2 : DB)
    (h1 : findUser db1 u1 = none)
    (user : UserRow)
    (h2 : findUser db2 u2 = some user)
    (h3 : verify2 p2 user.hashedPassword = false) :
    loginH u1 p1 verify1 issue1 db1 = loginH u2 p2 verify2 issue2 db2
    ∧ loginH u1 p1 verify1 issue1 db1
        = .form (some "Invalid username or password") := by
  constructor
  · simp [loginH, h1, h2, h3]
  · simp [loginH, h1]

theorem c7_login_failures_indistinguishable_witness :
    loginH "ghost" "pw" (fun _ _ => false) (fun _ => "tok") dbInit
      = loginH "alice" "wrong" (fun _ _ => false) (fun _ => "tok")
          ⟨[⟨1, "alice", "h"⟩], [], 2, 1⟩
    ∧ loginH "ghost" "pw" (fun _ _ => false) (fun _ => "tok") dbInit
      = .form (some "Invalid username or password") :=
  c7_login_failures_indistinguishable "ghost" "pw" (fun _ _ => false)
    (fun _ => "tok") dbInit "alice" "wrong" (fun _ _ => false) (fun _ => "tok")
    ⟨[⟨1, "alice", "h"⟩], [], 2, 1⟩ (by decide) ⟨1, "alice", "h"⟩ (by decide) rfl

/-- C2 counterexample: a POST /favorite request that does carry a session
cookie, but one whose value lacks the `"Bearer <token>"` shape (no space),
does not redirect to /login: `token.split(" ")[1]` raises an IndexError out
of the handler, and the same happens on GET /favorites. This refutes the
claim that every request with an unresolvable session is recovered by a
redirect. -/
theorem c2_session_boundary_counterexample :
    (addFavoriteH (some "garbage")
        (fun _ _ => Except.error HandlerErr.authFailure) "2025-07-01" dbInit).1
      = Except.error HandlerErr.indexError
    ∧ favoritesH (some "garbage")
        (fun _ _ => Except.error HandlerErr.authFailure) dbInit
        (fun _ => Except.ok "") []
      = Except.error HandlerErr.indexError := by
  constructor <;> decide

/-- C2 amended: for POST /favorite and GET /favorites, only a missing (or
empty, hence falsy) session cookie is recovered by the 303 redirect to
/login; a cookie value without a second space-separated field raises an
IndexError out of the handler, and a well-shaped cookie whose token fails
verification propagates the resolver's failure — neither of those paths
redirects. -/
theorem c2_amended_session_boundary (resolve : Resolver) (db : DB)
    (fetch : String → Except String String) (arrival : List Nat)
    (apodDate : String) :
    ((addFavoriteH none resolve apodDate db).1
        = .ok (.redirect "/login" 303)
      ∧ favoritesH none resolve db fetch arrival
        = .ok (.redirect "/login" 303))
    ∧ (∀ t, t ≠ "" → bearerToken t = none →
        (addFavoriteH (some t) resolve apodDate db).1 = .error .indexError
        ∧ favoritesH (some t) resolve db fetch arrival = .error .indexError)
    ∧ (∀ t tok e, t ≠ "" → bearerToken t = some tok →
        resolve tok db = .error e →
        (addFavoriteH (some t) resolve apodDate db).1 = .error e
        ∧ favoritesH (some t) resolve db fetch arrival = .error e) := by
  refine ⟨⟨rfl, rfl⟩, ?_, ?_⟩
  · intro t hne ht
    have hct : cookieTruthy (some t) = some t := by simp [cookieTruthy, hne]
    exact ⟨by simp [addFavoriteH, hct, ht], by simp [favoritesH, hct, ht]⟩
  · intro t tok e hne htok hres
    have hct : cookieTruthy (some t) = some t := by simp [cookieTruthy, hne]
    exact ⟨by simp [addFavoriteH, hct, htok, hres],
      by simp [favoritesH, hct, htok, hres]⟩

theorem c2_amended_session_boundary_witness :
    (addFavoriteH (some "Bearer bad")
        (fun _ _ => Except.error HandlerErr.authFailure) "2025-07-01" dbInit).1
      = Except.error HandlerErr.authFailure
    ∧ favoritesH (some "Bearer bad")
        (fun _ _ => Except.error HandlerErr.authFailure) dbInit
        (fun _ => Except.ok "") []
      = Except.error HandlerErr.authFailure :=
  (c2_amended_session_boundary (fun _ _ => Except.error HandlerErr.authFailure)
      dbInit (fun _ => Except.ok "") [] "2025-07-01").2.2
    "Bearer bad" "bad" HandlerErr.authFailure (by decide) (by decide) rfl

/-- C5 counterexample: the request `GET /?date=` carries a date query value
— the empty string — that does not parse as YYYY-MM-DD, yet the handler
does not render the invalid-date error view: the empty string is falsy in
Python, so the handler falls through to today's date and calls upstream. -/
theorem c5_invalid_date_counterexample :
    parseDate "" = none
    ∧ (readRoot ⟨2025, 7, 6⟩ none
        (fun _ _ => Except.error HandlerErr.authFailure) (some "") dbInit
        (fun _ => FetchResult.ok "stub")).2 = ["2025-07-06"]
    ∧ (readRoot ⟨2025, 7, 6⟩ none
        (fun _ _ => Except.error HandlerErr.authFailure) (some "") dbInit
        (fun _ => FetchResult.ok "stub")).1
      = Except.ok (Resp.rootPage "stub" "2025-07-06" "2025-07-05" "2025-07-07"
          none false) := by
  refine ⟨rfl, ?_, ?_⟩ <;> decide

/-- C5 amended: for every GET / request whose date query value is non-empty
and fails to parse as YYYY-MM-DD, the handler renders the error view with
exactly "Invalid date format. Please use YYYY-MM-DD." at HTTP status 200
and performs no upstream fetch at all; an empty date value is instead
treated as no date (today's picture is fetched). -/
theorem c5_amended_invalid_date (today : Date) (cookie : Option String)
    (resolve : Resolver) (db : DB) (fetch : String → FetchResult) (s : String)
    (hs : s ≠ "") (hparse : parseDate s = none) :
    readRoot today cookie resolve (some s) db fetch
      = (.ok (.render "index.html"
          "Invalid date format. Please use YYYY-MM-DD." 200), []) := by
  simp [readRoot, cookieTruthy, hs, hparse]

theorem c5_amended_invalid_date_witness :
    readRoot ⟨2025, 7, 6⟩ none
        (fun _ _ => Except.error HandlerErr.authFailure) (some "invalid-date")
        dbInit (fun _ => FetchResult.ok "stub")
      = (.ok (.render "index.html"
          "Invalid date format. Please use YYYY-MM-DD." 200), []) :=
  c5_amended_invalid_date ⟨2025, 7, 6⟩ none
    (fun _ _ => Except.error HandlerErr.authFailure) dbInit
    (fun _ => FetchResult.ok "stub") "invalid-date" (by decide) (by decide)

/-- C6 counterexample: "0001-01-01" parses to the valid minimal CPython
date and is accepted by the home view, but no navigation dates are rendered
for it: `current_date - timedelta(days=1)` overflows below the representable
range and the OverflowError escapes the handler. -/
theorem c6_navigation_counterexample :
    parseDate "0001-01-01" = some ⟨1, 1, 1⟩
    ∧ validDate ⟨1, 1, 1⟩
    ∧ (readRoot ⟨2025, 7, 6⟩ none
        (fun _ _ => Except.error HandlerErr.authFailure) (some "0001-01-01")
        dbInit (fun _ => FetchResult.ok "stub")).1
      = Except.error HandlerErr.overflowError := by
  refine ⟨by decide, by decide, by decide⟩

/-- C6 amended: for every valid date the home view accepts, other than the
two calendar extremes 0001-01-01 and 9999-12-31 (where CPython's date
arithmetic overflows and the handler raises), the successfully rendered
page carries previous and next navigation dates that are exactly one
calendar day before and after — valid dates whose proleptic Gregorian
ordinals differ by exactly one, so month and year boundaries are handled —
with no validation against the API's minimum date or the future. -/
theorem c6_amended_navigation (today : Date) (cookie : Option String)
    (resolve : Resolver) (db : DB) (fetch : String → FetchResult)
    (s body : String) (dt : Date)
    (hparse : parseDate s = some dt)
    (hmin : dt ≠ ⟨1, 1, 1⟩) (hmax : dt ≠ ⟨9999, 12, 31⟩)
    (hfetch : fetch (formatDate dt) = .ok body) :
    ∃ pd nd, dateSubDay dt = .ok pd ∧ dateAddDay dt = .ok nd
      ∧ validDate pd ∧ validDate nd
      ∧ toOrdinal dt = toOrdinal pd + 1
      ∧ toOrdinal nd = toOrdinal dt + 1
      ∧ readRoot today cookie resolve (some s) db fetch
        = (.ok (.rootPage body (formatDate dt) (formatDate pd) (formatDate nd)
            (resolveUserSafe cookie resolve db)
            (isFavQuery db (resolveUserSafe cookie resolve db) dt)),
          [formatDate dt]) := by
  have hv := parseDate_valid s dt hparse
  obtain ⟨pd, hpd, hpdv, hpdo⟩ := dateSubDay_ordinal dt hv hmin
  obtain ⟨nd, hnd, hndv, hndo⟩ := dateAddDay_ordinal dt hv hmax
  refine ⟨pd, nd, hpd, hnd, hpdv, hndv, hpdo, hndo, ?_⟩
  have hsne : s ≠ "" := by
    intro he
    rw [he] at hparse
    have hnone : parseDate "" = none := by decide
    rw [hnone] at hparse
    exact Option.noConfusion hparse
  simp [readRoot, cookieTruthy, hsne, hparse, readRootFetch, hfetch, hpd, hnd]

theorem c6_amended_navigation_witness :
    ∃ pd nd, dateSubDay ⟨2024, 3, 1⟩ = .ok pd ∧ dateAddDay ⟨2024, 3, 1⟩ = .ok nd
      ∧ validDate pd ∧ validDate nd
      ∧ toOrdinal ⟨2024, 3, 1⟩ = toOrdinal pd + 1
      ∧ toOrdinal nd = toOrdinal ⟨2024, 3, 1⟩ + 1
      ∧ readRoot ⟨2025, 7, 6⟩ none
          (fun _ _ => Except.error HandlerErr.authFailure) (some "2024-03-01")
          dbInit (fun _ => FetchResult.ok "stub")
        = (.ok (.rootPage "stub" (formatDate ⟨2024, 3, 1⟩) (formatDate pd)
            (formatDate nd)
            (resolveUserSafe none (fun _ _ => Except.error HandlerErr.authFailure)
              dbInit)
            (isFavQuery dbInit
              (resolveUserSafe none
                (fun _ _ => Except.error HandlerErr.authFailure) dbInit)
              ⟨2024, 3, 1⟩)),
          [formatDate ⟨2024, 3, 1⟩]) :=
  c6_amended_navigation ⟨2025, 7, 6⟩ none
    (fun _ _ => Except.error HandlerErr.authFailure) dbInit
    (fun _ => FetchResult.ok "stub") "2024-03-01" "stub" ⟨2024, 3, 1⟩
    (by decide) (by decide) (by decide) rfl

/-- C4: for an authenticated GET /favorites whose N upstream fetches all
succeed, the rendered list pairs each favorited date (in the order the
favorites were stored) with the result of that date's own fetch, for every
possible network arrival order of the N concurrent responses. -/
theorem c4_favorites_order (cookie : Option String) (t tok : String)
    (resolve : Resolver) (user : UserRow) (db : DB)
    (g : String → String) (fetch : String → Except String String)
    (arrival : List Nat)
    (hc : cookieTruthy cookie = some t)
    (htok : bearerToken t = some tok)
    (hres : resolve tok db = .ok user)
    (hfetch : ∀ dd, fetch dd = .ok (g dd))
    (harr : arrival.Perm (List.range (favDates db user.id).length)) :
    favoritesH cookie resolve db fetch arrival
      = .ok (.favPage ((favDates db user.id).map g) user) := by
  simp only [favoritesH, hc, htok, hres]
  have hres_eq : (favDates db user.id).map fetch
      = (favDates db user.id).map
          (fun dd => (Except.ok (g dd) : Except String String)) :=
    List.map_congr_left (fun dd _ => hfetch dd)
  rw [hres_eq, List.length_map,
    runSched_perm (favDates db user.id) g arrival harr]
  have hmm : (favDates db user.id).map (fun dd => some (g dd))
      = ((favDates db user.id).map g).map some := by
    rw [List.map_map]
    rfl
  rw [hmm]
  exact congrArg (fun l => Except.ok (Resp.favPage l user))
    (reduceOption_map_some (List.map g (favDates db user.id)))

theorem c4_favorites_order_witness :
    favoritesH (some "Bearer t") (fun _ _ => Except.ok ⟨1, "alice", "h"⟩)
        ⟨[⟨1, "alice", "h"⟩], [⟨1, 1, ⟨2025, 7, 1⟩⟩, ⟨2, 1, ⟨2025, 7, 6⟩⟩], 2, 3⟩
        (fun dd => Except.ok ("apod:" ++ dd)) [1, 0]
      = .ok (.favPage ["apod:2025-07-01", "apod:2025-07-06"]
          ⟨1, "alice", "h"⟩) :=
  c4_favorites_order (some "Bearer t") "Bearer t" "t"
    (fun _ _ => Except.ok ⟨1, "alice", "h"⟩) ⟨1, "alice", "h"⟩
    ⟨[⟨1, "alice", "h"⟩], [⟨1, 1, ⟨2025, 7, 1⟩⟩, ⟨2, 1, ⟨2025, 7, 6⟩⟩], 2, 3⟩
    (fun dd => "apod:" ++ dd) (fun dd => Except.ok ("apod:" ++ dd)) [1, 0]
    (by decide) (by decide) rfl (fun dd => rfl) (by decide)

/-- C9: for an authenticated GET /favorites, if any single one of the
gathered upstream fetches fails, the exception is re-raised out of the
handler — no favorites page and no error view is produced — whatever the
arrival order of the network responses. -/
theorem c9_failing_fetch_propagates (cookie : Option String) (t tok : String)
    (resolve : Resolver) (user : UserRow) (db : DB)
    (fetch : String → Except String String) (arrival : List Nat)
    (i : Nat) (e : String)
    (hc : cookieTruthy cookie = some t)
    (htok : bearerToken t = some tok)
    (hres : resolve tok db = .ok user)
    (harr : arrival.Perm (List.range (favDates db user.id).length))
    (hi : i < (favDates db user.id).length)
    (hfail : ∃ dd, (favDates db user.id)[i]? = some dd ∧ fetch dd = .error e) :
    ∃ e2, favoritesH cookie resolve db fetch arrival
      = .error (.fetchFailure e2) := by
  simp only [favoritesH, hc, htok, hres]
  have hmem : i ∈ arrival := harr.symm.mem_iff.mp (List.mem_range.mpr hi)
  obtain ⟨dd, hdd, hfe⟩ := hfail
  have hie : ((favDates db user.id).map fetch)[i]? = some (.error e) := by
    rw [List.getElem?_map, hdd]
    simp [hfe]
  obtain ⟨e2, he2⟩ := runSched_error_of_mem ((favDates db user.id).map fetch)
    arrival (List.replicate ((favDates db user.id).map fetch).length none)
    ⟨i, hmem, e, hie⟩
  refine ⟨e2, ?_⟩
  rw [he2]

theorem c9_failing_fetch_propagates_witness :
    ∃ e2, favoritesH (some "Bearer t") (fun _ _ => Except.ok ⟨1, "alice", "h"⟩)
        ⟨[⟨1, "alice", "h"⟩], [⟨1, 1, ⟨2025, 7, 1⟩⟩, ⟨2, 1, ⟨2025, 7, 6⟩⟩], 2, 3⟩
        (fun dd => if dd = "2025-07-06" then Except.error "boom"
          else Except.ok "x") [0, 1]
      = .error (.fetchFailure e2) :=
  c9_failing_fetch_propagates (some "Bearer t") "Bearer t" "t"
    (fun _ _ => Except.ok ⟨1, "alice", "h"⟩) ⟨1, "alice", "h"⟩
    ⟨[⟨1, "alice", "h"⟩], [⟨1, 1, ⟨2025, 7, 1⟩⟩, ⟨2, 1, ⟨2025, 7, 6⟩⟩], 2, 3⟩
    (fun dd => if dd = "2025-07-06" then Except.error "boom" else Except.ok "x")
    [0, 1] 1 "boom" (by decide) (by decide) rfl (by decide) (by decide)
    ⟨"2025-07-06", by decide, by decide⟩

end ApodApp
